import Mathlib

/-!
Verification development for `bilibili_api/login_v2.py`.

The Python module is shallowly embedded: pure string manipulation is
modelled over `List Char` (Python `str` indexing, slicing and splitting act
on code points, exactly as `List Char` does), network requests are factored
out by passing the decoded JSON response as an explicit record, and Python
exceptions are modelled with `Except PyErr`.  Stateful code
(`QrCodeLogin`) is modelled by explicit state passing plus a step function
over an operation list.
-/

namespace BilibiliLogin

/-! ## Python string primitives

Python string operations used by `login_v2.py`, modelled over `String.data`
(`List Char`) so that every definition evaluates by kernel reduction.
-/

/-- Python `s[:n]` (slice of the first `n` code points). -/
def pyTake (s : String) (n : Nat) : String := ⟨s.data.take n⟩

/-- Python `s[n:]` (drop the first `n` code points). -/
def pyDrop (s : String) (n : Nat) : String := ⟨s.data.drop n⟩

/-- Python `s.upper()` restricted to ASCII case mapping, which is all the
source applies it to (cookie names). -/
def pyUpper (s : String) : String := ⟨s.data.map Char.toUpper⟩

/-- Splitting a character list on a separator character; the result always
has one more group than there are separators, so it is never empty. -/
def splitChars (sep : Char) : List Char → List (List Char)
  | [] => [[]]
  | c :: rest =>
    if c = sep then [] :: splitChars sep rest
    else
      match splitChars sep rest with
      | [] => [[c]]
      | g :: gs => (c :: g) :: gs

/-- Python `s.split(sep)` for a one-character separator, as used by
`url.split("?")` and `...split("&")` in the source. -/
def pySplit (s : String) (sep : Char) : List String :=
  (splitChars sep s.data).map (fun l => ⟨l⟩)

/-- Does `needle` occur at the start of `hay`? -/
def startsList : List Char → List Char → Bool
  | [], _ => true
  | _ :: _, [] => false
  | c :: n, h :: hs => c = h && startsList n hs

/-- Does `needle` occur contiguously anywhere in `hay`? -/
def containsSubAux (needle : List Char) : List Char → Bool
  | [] => needle.isEmpty
  | h :: t => startsList needle (h :: t) || containsSubAux needle t

/-- Python `needle in hay` for strings (contiguous substring test; the
empty string is contained in every string). -/
def strContains (hay needle : String) : Bool := containsSubAux needle.data hay.data

/-- Python `s.lstrip("+")`: remove every leading `'+'`. -/
def pyLstripPlus (s : String) : String := ⟨s.data.dropWhile (fun c => c = '+')⟩

/-- Python `number.replace("-", "")`: remove every `'-'` character. -/
def pyRemoveDash (s : String) : String := ⟨s.data.filter (fun c => c ≠ '-')⟩

/-- Strip leading and trailing whitespace (Python `int()` accepts it). -/
def trimChars (l : List Char) : List Char :=
  ((l.dropWhile Char.isWhitespace).reverse.dropWhile Char.isWhitespace).reverse

/-- Value of a nonempty all-digit character list, base 10. -/
def digitsToNat (l : List Char) : Option Nat :=
  if l ≠ [] ∧ l.all Char.isDigit then
    some (l.foldl (fun a c => a * 10 + (c.toNat - 48)) 0)
  else none

/-- Python `int(s)` on the decimal strings reaching it in this module:
optional surrounding whitespace, an optional single sign, then decimal
digits; `none` models the `ValueError` Python raises otherwise. -/
def pyInt (s : String) : Option Int :=
  match trimChars s.data with
  | '+' :: rest => (digitsToNat rest).map (fun n => (n : Int))
  | '-' :: rest => (digitsToNat rest).map (fun n => -(n : Int))
  | l => (digitsToNat l).map (fun n => (n : Int))

/-- Python `str(x)` applied to an optional string (`str(None) = "None"`),
as in `str(resp.cookies.get("SESSDATA"))`. -/
def pyStrOfOpt : Option String → String
  | some s => s
  | none => "None"

/-! ## Exceptions and external collaborators -/

/-- The Python exceptions that the modelled code can raise. -/
inductive PyErr where
  | loginError (msg : String)
  | valueError (msg : String)
  | typeError (msg : String)
  | indexError
  | geetestUndone
  | statementError
deriving DecidableEq

/-- Modelled from the spec: `Credential` lives in `utils/credential`, not
under `src/`; the spec treats it as the bundle of cookie values issued at
login.  The source constructs it with keyword arguments that may be
omitted (TV branch), so every field is optional with default `none`. -/
structure Credential where
  sessdata : Option String := none
  bili_jct : Option String := none
  dedeuserid : Option String := none
  ac_time_value : Option String := none
deriving DecidableEq

/-- Modelled from the spec: `Geetest` (CAPTCHA solving) is an external
collaborator in `utils/geetest`, not under `src/`; only the completion
flag and the four token fields read by the login flows are modelled. -/
structure Geetest where
  key : String := ""
  challenge : String := ""
  validate : String := ""
  seccode : String := ""
  done : Bool := false
deriving DecidableEq

/-- `Geetest.has_done()` as used by the source. -/
def Geetest.has_done (g : Geetest) : Bool := g.done

/-! ## Shared credential extraction

`login_with_sms` and the WEB `DONE` branch of `QrCodeLogin.check_state`
contain the same loop over `url.split("?")[1].split("&")`:

    if cookie[:8] == "SESSDATA":       sessdata = cookie[9:]
    if cookie[:8] == "bili_jct":       bili_jct = cookie[9:]
    if cookie[:11].upper() == "DEDEUSERID=":  dede = cookie[11:]
-/

/-- The test `cookie[:8] == "SESSDATA"`. -/
def sess_test (c : String) : Bool := decide (pyTake c 8 = "SESSDATA")

/-- The test `cookie[:8] == "bili_jct"`. -/
def jct_test (c : String) : Bool := decide (pyTake c 8 = "bili_jct")

/-- The test `cookie[:11].upper() == "DEDEUSERID="`. -/
def dede_test (c : String) : Bool := decide (pyUpper (pyTake c 11) = "DEDEUSERID=")

/-- One iteration of the extraction loop. -/
def cookie_step (acc : String × String × String) (c : String) : String × String × String :=
  (if sess_test c then pyDrop c 9 else acc.1,
   if jct_test c then pyDrop c 9 else acc.2.1,
   if dede_test c then pyDrop c 11 else acc.2.2)

/-- The extraction loop over the `"&"`-separated parameter list, starting
from the empty-string defaults of the source. -/
def extract_cookies_params (ps : List String) : String × String × String :=
  ps.foldl cookie_step ("", "", "")

/-- `url.split("?")[1].split("&")` fed to the extraction loop; `none`
models the `IndexError` Python raises when the URL has no `'?'`. -/
def extract_cookies_url (url : String) : Option (String × String × String) :=
  match pySplit url '?' with
  | _ :: q :: _ => some (extract_cookies_params (pySplit q '&'))
  | _ => none

/-- Value contributed by the last parameter satisfying `p`, its first `n`
code points removed; empty string when no parameter matches. -/
def last_match_value (p : String → Bool) (n : Nat) (ps : List String) : String :=
  match (ps.filter p).getLast? with
  | some c => pyDrop c n
  | none => ""

/-- Extraction described parameterwise: for each of the three tests, the
value taken comes from the last parameter of the list passing that test. -/
def extract_cookies_spec (ps : List String) : String × String × String :=
  (last_match_value sess_test 9 ps,
   last_match_value jct_test 9 ps,
   last_match_value dede_test 11 ps)

theorem getLast?_cons_eq {α : Type} (a : α) (l : List α) :
    (a :: l).getLast? = some (l.getLast?.getD a) := by
  induction l generalizing a with
  | nil => rfl
  | cons b bs ih => simp [List.getLast?_cons_cons, ih b]

theorem foldl_upd_last (p : String → Bool) (n : Nat) (acc : String) (ps : List String) :
    ps.foldl (fun a c => if p c then pyDrop c n else a) acc
      = (match (ps.filter p).getLast? with
         | some c => pyDrop c n
         | none => acc) := by
  induction ps generalizing acc with
  | nil => rfl
  | cons c t ih =>
    rw [List.foldl_cons, ih]
    by_cases hp : p c = true
    · rw [List.filter_cons_of_pos hp, getLast?_cons_eq]
      cases h : (t.filter p).getLast? with
      | none => simp [h, hp]
      | some x => simp [h]
    · have hp2 : p c = false := by
        cases hq : p c
        · rfl
        · exact absurd hq hp
      rw [List.filter_cons_of_neg (by simp [hp2])]
      simp [hp2]

theorem extract_foldl_fst (acc : String × String × String) (ps : List String) :
    (ps.foldl cookie_step acc).1
      = ps.foldl (fun a c => if sess_test c then pyDrop c 9 else a) acc.1 := by
  induction ps generalizing acc with
  | nil => rfl
  | cons c t ih => rw [List.foldl_cons, List.foldl_cons, ih]; rfl

theorem extract_foldl_snd (acc : String × String × String) (ps : List String) :
    (ps.foldl cookie_step acc).2.1
      = ps.foldl (fun a c => if jct_test c then pyDrop c 9 else a) acc.2.1 := by
  induction ps generalizing acc with
  | nil => rfl
  | cons c t ih => rw [List.foldl_cons, List.foldl_cons, ih]; rfl

theorem extract_foldl_thd (acc : String × String × String) (ps : List String) :
    (ps.foldl cookie_step acc).2.2
      = ps.foldl (fun a c => if dede_test c then pyDrop c 11 else a) acc.2.2 := by
  induction ps generalizing acc with
  | nil => rfl
  | cons c t ih => rw [List.foldl_cons, List.foldl_cons, ih]; rfl

/-- Claim C2 (amended): over every `"&"`-separated parameter list, the
extraction loop shared by `login_with_sms` and the WEB `DONE` branch of
`check_state` yields, for each of the three tests actually performed by
the code (first 8 code points equal to `"SESSDATA"`, first 8 equal to
`"bili_jct"`, first 11 uppercased equal to `"DEDEUSERID="`), the last
matching parameter stripped of its first 9, 9 resp. 11 code points, with
the empty string as default. -/
theorem C2_extraction_last_match (ps : List String) :
    extract_cookies_params ps = extract_cookies_spec ps := by
  unfold extract_cookies_params extract_cookies_spec last_match_value
  refine Prod.ext ?_ (Prod.ext ?_ ?_)
  · rw [extract_foldl_fst, foldl_upd_last]
  · rw [extract_foldl_snd, foldl_upd_last]
  · rw [extract_foldl_thd, foldl_upd_last]

/-- Witness for C2 on a concrete parameter list. -/
theorem C2_extraction_last_match_witness :
    extract_cookies_params ["SESSDATA=s", "bili_jct=j", "DedeUserID=d"]
      = extract_cookies_spec ["SESSDATA=s", "bili_jct=j", "DedeUserID=d"] :=
  C2_extraction_last_match ["SESSDATA=s", "bili_jct=j", "DedeUserID=d"]

/-- Claim C2 as frozen is false: in the URL below, the portion after the
first `'?'` is a parameter list containing `SESSDATA=a`, `bili_jct=j` and
`DedeUserID=d`, and `SESSDATA=a` is its last parameter named `SESSDATA`
(second conjunct), so the claim demands `sessdata = "a"`; but the code
also prefix-matches the parameter `SESSDATA_hack` and takes `"hack"`. -/
theorem C2_counterexample :
    extract_cookies_url "https://x.example?SESSDATA=a&SESSDATA_hack&bili_jct=j&DedeUserID=d"
        = some ("hack", "j", "d")
      ∧ ((pySplit "SESSDATA=a&SESSDATA_hack&bili_jct=j&DedeUserID=d" '&').filter
            (fun c => decide (pyTake c 9 = "SESSDATA="))).getLast? = some "SESSDATA=a"
      ∧ ("hack" : String) ≠ "a" := by decide

/-! ## QR-code login: enumerations, state, polling -/

/-- `QrCodeLoginChannel` of the source: the two QR login platforms. -/
inductive QrCodeLoginChannel where
  | WEB
  | TV
deriving DecidableEq, Fintype

/-- `QrCodeLoginEvents` of the source: the QR polling status enumeration,
with members `SCAN`, `CONF`, `TIMEOUT` and `DONE`. -/
inductive QrCodeLoginEvents where
  | SCAN
  | CONF
  | TIMEOUT
  | DONE
deriving DecidableEq, Fintype

/-- The decoded JSON record the WEB polling endpoint yields, with the
fields `check_state` reads from it. -/
structure WebEventsResp where
  code : Int
  url : String
  refresh_token : String
deriving DecidableEq

/-- One entry of `data["cookie_info"]["cookies"]` in the TV polling
response. -/
structure TvCookie where
  name : String
  value : String
deriving DecidableEq

/-- The decoded JSON record the TV polling endpoint yields, with the
fields `check_state` reads from it. -/
structure TvEventsResp where
  code : Int
  cookies : List TvCookie
  refresh_token : String
deriving DecidableEq

/-- The mutable attributes of a `QrCodeLogin` instance that the modelled
operations touch (`__qr_picture`/`__qr_terminal` are rendering artefacts
of external collaborators and are not modelled). -/
structure QrState where
  platform : QrCodeLoginChannel
  qr_link : String := ""
  qr_key : String := ""
  credential : Option Credential := none
deriving DecidableEq

/-- `QrCodeLogin.__init__`: stores the platform and leaves the credential
unset. -/
def qr_init (p : QrCodeLoginChannel) : QrState := { platform := p }

/-- `QrCodeLogin.has_done`, i.e. `bool(self.__credential)`.  Modelled from
the spec for the part outside `src/`: `Credential` defines no truthiness
of its own, so an instance is truthy and only the initial `None` is falsy;
hence the test is `isSome`. -/
def QrState.has_done (st : QrState) : Bool := st.credential.isSome

/-- `QrCodeLogin.get_credential`: `raise_for_statement(self.has_done())`
(modelled from the spec: `raise_for_statement`, outside `src/`, raises
when its argument is false) and then return the stored credential. -/
def get_credential (st : QrState) : Except PyErr Credential :=
  match st.credential with
  | some c => Except.ok c
  | none => Except.error PyErr.statementError

/-- The credential the WEB `DONE` branch builds out of the query part `q`
of the cookie URL and the `refresh_token` field. -/
def web_done_credential (q : String) (refresh : String) : Credential :=
  Credential.mk
    (some (extract_cookies_params (pySplit q '&')).1)
    (some (extract_cookies_params (pySplit q '&')).2.1)
    (some (extract_cookies_params (pySplit q '&')).2.2)
    (some refresh)

/-- The WEB branch of `QrCodeLogin.check_state`: dispatch on the remote
numeric code; on the fall-through branch parse the cookie URL (raising
`IndexError` when it has no `'?'`) and store the credential. -/
def check_state_web (st : QrState) (r : WebEventsResp) :
    Except PyErr (QrCodeLoginEvents × QrState) :=
  if r.code = 86101 then Except.ok (QrCodeLoginEvents.SCAN, st)
  else if r.code = 86090 then Except.ok (QrCodeLoginEvents.CONF, st)
  else if r.code = 86038 then Except.ok (QrCodeLoginEvents.TIMEOUT, st)
  else
    match pySplit r.url '?' with
    | _ :: q :: _ =>
      Except.ok (QrCodeLoginEvents.DONE,
        { st with credential := some (web_done_credential q r.refresh_token) })
    | _ => Except.error PyErr.indexError

/-- One iteration of the TV cookie loop: an `elif` chain on the cookie
name filling the keyword-argument dictionary. -/
def tv_cookie_step (acc : Option String × Option String × Option String)
    (ck : TvCookie) : Option String × Option String × Option String :=
  if ck.name = "SESSDATA" then (some ck.value, acc.2.1, acc.2.2)
  else if ck.name = "bili_jct" then (acc.1, some ck.value, acc.2.2)
  else if ck.name = "DedeUserID" then (acc.1, acc.2.1, some ck.value)
  else acc

/-- The credential the TV `DONE` branch collects from the named cookies
of the response plus its `refresh_token` field. -/
def tv_done_credential (cookies : List TvCookie) (refresh : String) : Credential :=
  Credential.mk
    (cookies.foldl tv_cookie_step (none, none, none)).1
    (cookies.foldl tv_cookie_step (none, none, none)).2.1
    (cookies.foldl tv_cookie_step (none, none, none)).2.2
    (some refresh)

/-- The TV branch of `QrCodeLogin.check_state` (continued): dispatch and,
on the fall-through branch, store the collected credential. -/
def check_state_tv (st : QrState) (r : TvEventsResp) :
    Except PyErr (QrCodeLoginEvents × QrState) :=
  if r.code = 86039 then Except.ok (QrCodeLoginEvents.SCAN, st)
  else if r.code = 86038 then Except.ok (QrCodeLoginEvents.TIMEOUT, st)
  else
    Except.ok (QrCodeLoginEvents.DONE,
      { st with credential := some (tv_done_credential r.cookies r.refresh_token) })

/-- `QrCodeLogin.check_state`: branch on the stored platform; the
environment supplies the decoded response of whichever endpoint is
polled. -/
def check_state (st : QrState) (w : WebEventsResp) (t : TvEventsResp) :
    Except PyErr (QrCodeLoginEvents × QrState) :=
  if st.platform = QrCodeLoginChannel.WEB then check_state_web st w
  else check_state_tv st t

/-- An operation performed on a `QrCodeLogin` instance:
`generate_qrcode` (with the link and key the endpoint returned) or
`check_state` (with the decoded polling responses). -/
inductive QrOp where
  | generate (url key : String)
  | check (w : WebEventsResp) (t : TvEventsResp)
deriving DecidableEq

/-- Effect of one operation on the instance state; a `check_state` call
reports its returned event, and a raised exception leaves the stored
attributes untouched. -/
def qr_step (st : QrState) (op : QrOp) : QrState × Option QrCodeLoginEvents :=
  match op with
  | QrOp.generate u k => ({ st with qr_link := u, qr_key := k }, none)
  | QrOp.check w t =>
    match check_state st w t with
    | Except.ok (e, st2) => (st2, some e)
    | Except.error _ => (st, none)

/-- Run a list of operations, collecting the events the `check_state`
calls returned. -/
def qr_run : QrState → List QrOp → QrState × List QrCodeLoginEvents
  | st, [] => (st, [])
  | st, op :: rest =>
    ((qr_run (qr_step st op).1 rest).1,
     (qr_step st op).2.toList ++ (qr_run (qr_step st op).1 rest).2)

/-- Claim C1 as frozen is false: the QR polling status enumeration
`QrCodeLoginEvents` does not have five states. -/
theorem C1_counterexample : Fintype.card QrCodeLoginEvents ≠ 5 := by decide

/-- Claim C1 (amended): the QR-code login status enumeration used by the
polling loop (`QrCodeLoginEvents`, the possible return values of
`QrCodeLogin.check_state`) has exactly four states. -/
theorem C1_login_events_card : Fintype.card QrCodeLoginEvents = 4 := by decide

/-- Claim C3: for a `QrCodeLogin` on the WEB platform, `check_state` maps
the remote numeric status code so that 86101 yields `SCAN`, 86090 yields
`CONF`, 86038 yields `TIMEOUT`, and every other code yields `DONE` (the
last for every response whose cookie URL carries a query part, which the
remote contract guarantees); and the stored credential is modified only
on the `DONE` branch. -/
theorem C3_check_state_web_mapping (st : QrState) (w : WebEventsResp) (t : TvEventsResp)
    (hp : st.platform = QrCodeLoginChannel.WEB) :
    (w.code = 86101 → check_state st w t = Except.ok (QrCodeLoginEvents.SCAN, st))
  ∧ (w.code = 86090 → check_state st w t = Except.ok (QrCodeLoginEvents.CONF, st))
  ∧ (w.code = 86038 → check_state st w t = Except.ok (QrCodeLoginEvents.TIMEOUT, st))
  ∧ (w.code ≠ 86101 → w.code ≠ 86090 → w.code ≠ 86038 →
      ∀ a q rest, pySplit w.url '?' = a :: q :: rest →
        check_state st w t
          = Except.ok (QrCodeLoginEvents.DONE,
              { st with credential := some (web_done_credential q w.refresh_token) }))
  ∧ (∀ e st2, check_state st w t = Except.ok (e, st2) →
      e ≠ QrCodeLoginEvents.DONE → st2.credential = st.credential) := by
  have hcw : check_state st w t = check_state_web st w := by
    simp [check_state, hp]
  refine ⟨?_, ?_, ?_, ?_, ?_⟩
  · intro h
    rw [hcw]
    simp [check_state_web, h]
  · intro h
    rw [hcw]
    simp [check_state_web, h]
  · intro h
    rw [hcw]
    simp [check_state_web, h]
  · intro h1 h2 h3 a q rest hsplit
    rw [hcw]
    simp [check_state_web, h1, h2, h3, hsplit]
  · intro e st2 hok hne
    rw [hcw] at hok
    unfold check_state_web at hok
    split_ifs at hok with c1 c2 c3
    · simp only [Except.ok.injEq, Prod.mk.injEq] at hok
      rw [← hok.2]
    · simp only [Except.ok.injEq, Prod.mk.injEq] at hok
      rw [← hok.2]
    · simp only [Except.ok.injEq, Prod.mk.injEq] at hok
      rw [← hok.2]
    · split at hok
      · simp only [Except.ok.injEq, Prod.mk.injEq] at hok
        exact absurd hok.1.symm hne
      · exact absurd hok (by simp)

/-- Witness for C3 at a concrete WEB state and response. -/
theorem C3_check_state_web_mapping_witness :
    check_state (qr_init QrCodeLoginChannel.WEB)
        (WebEventsResp.mk 86101 "" "") (TvEventsResp.mk 0 [] "")
      = Except.ok (QrCodeLoginEvents.SCAN, qr_init QrCodeLoginChannel.WEB) :=
  (C3_check_state_web_mapping (qr_init QrCodeLoginChannel.WEB)
    (WebEventsResp.mk 86101 "" "") (TvEventsResp.mk 0 [] "") rfl).1 rfl

/-- Claim C4: for a `QrCodeLogin` on the TV platform, `check_state` maps
the remote numeric status code so that 86039 yields `SCAN`, 86038 yields
`TIMEOUT`, and every other code yields `DONE`; in particular the TV
variant never returns `CONF`. -/
theorem C4_check_state_tv_mapping (st : QrState) (w : WebEventsResp) (t : TvEventsResp)
    (hp : st.platform = QrCodeLoginChannel.TV) :
    (t.code = 86039 → check_state st w t = Except.ok (QrCodeLoginEvents.SCAN, st))
  ∧ (t.code = 86038 → check_state st w t = Except.ok (QrCodeLoginEvents.TIMEOUT, st))
  ∧ (t.code ≠ 86039 → t.code ≠ 86038 →
      check_state st w t
        = Except.ok (QrCodeLoginEvents.DONE,
            { st with credential := some (tv_done_credential t.cookies t.refresh_token) }))
  ∧ (∀ e st2, check_state st w t = Except.ok (e, st2) → e ≠ QrCodeLoginEvents.CONF) := by
  have hct : check_state st w t = check_state_tv st t := by
    simp [check_state, hp]
  refine ⟨?_, ?_, ?_, ?_⟩
  · intro h
    rw [hct]
    simp [check_state_tv, h]
  · intro h
    rw [hct]
    simp [check_state_tv, h]
  · intro h1 h2
    rw [hct]
    simp [check_state_tv, h1, h2]
  · intro e st2 hok
    rw [hct] at hok
    unfold check_state_tv at hok
    split_ifs at hok
    all_goals
      simp only [Except.ok.injEq, Prod.mk.injEq] at hok
      rw [← hok.1]
      simp

/-- Witness for C4 at a concrete TV state and response. -/
theorem C4_check_state_tv_mapping_witness :
    check_state (qr_init QrCodeLoginChannel.TV)
        (WebEventsResp.mk 0 "" "") (TvEventsResp.mk 86039 [] "")
      = Except.ok (QrCodeLoginEvents.SCAN, qr_init QrCodeLoginChannel.TV) :=
  (C4_check_state_tv_mapping (qr_init QrCodeLoginChannel.TV)
    (WebEventsResp.mk 0 "" "") (TvEventsResp.mk 86039 [] "") rfl).1 rfl

theorem check_state_ok_cases (st : QrState) (w : WebEventsResp) (t : TvEventsResp)
    (e : QrCodeLoginEvents) (st2 : QrState)
    (h : check_state st w t = Except.ok (e, st2)) :
    (e = QrCodeLoginEvents.DONE ∧ st2.credential.isSome = true)
      ∨ (e ≠ QrCodeLoginEvents.DONE ∧ st2 = st) := by
  unfold check_state at h
  by_cases hp : st.platform = QrCodeLoginChannel.WEB
  · rw [if_pos hp] at h
    unfold check_state_web at h
    split_ifs at h with c1 c2 c3
    · simp only [Except.ok.injEq, Prod.mk.injEq] at h
      obtain ⟨he, hst⟩ := h
      subst he; subst hst
      exact Or.inr ⟨by simp, rfl⟩
    · simp only [Except.ok.injEq, Prod.mk.injEq] at h
      obtain ⟨he, hst⟩ := h
      subst he; subst hst
      exact Or.inr ⟨by simp, rfl⟩
    · simp only [Except.ok.injEq, Prod.mk.injEq] at h
      obtain ⟨he, hst⟩ := h
      subst he; subst hst
      exact Or.inr ⟨by simp, rfl⟩
    · split at h
      · simp only [Except.ok.injEq, Prod.mk.injEq] at h
        obtain ⟨he, hst⟩ := h
        subst he
        exact Or.inl ⟨rfl, by rw [← hst]; rfl⟩
      · exact absurd h (by simp)
  · rw [if_neg hp] at h
    unfold check_state_tv at h
    split_ifs at h with c1 c2
    · simp only [Except.ok.injEq, Prod.mk.injEq] at h
      obtain ⟨he, hst⟩ := h
      subst he; subst hst
      exact Or.inr ⟨by simp, rfl⟩
    · simp only [Except.ok.injEq, Prod.mk.injEq] at h
      obtain ⟨he, hst⟩ := h
      subst he; subst hst
      exact Or.inr ⟨by simp, rfl⟩
    · simp only [Except.ok.injEq, Prod.mk.injEq] at h
      obtain ⟨he, hst⟩ := h
      subst he
      exact Or.inl ⟨rfl, by rw [← hst]; rfl⟩

theorem qr_step_has_done (st : QrState) (op : QrOp) :
    (qr_step st op).1.has_done = true
      ↔ (st.has_done = true ∨ (qr_step st op).2 = some QrCodeLoginEvents.DONE) := by
  cases op with
  | generate u k => simp [qr_step, QrState.has_done]
  | check w t =>
    simp only [qr_step]
    cases h : check_state st w t with
    | error err => simp [QrState.has_done]
    | ok p =>
      obtain ⟨e, st2⟩ := p
      rcases check_state_ok_cases st w t e st2 h with ⟨hd, hs⟩ | ⟨hd, hs⟩
      · subst hd
        simp [QrState.has_done, hs]
      · subst hs
        simp [QrState.has_done, hd]

theorem qr_step_credential (st : QrState) (op : QrOp) :
    (qr_step st op).2 ≠ some QrCodeLoginEvents.DONE →
      (qr_step st op).1.credential = st.credential := by
  intro hne
  cases op with
  | generate u k => simp [qr_step]
  | check w t =>
    simp only [qr_step] at hne ⊢
    cases h : check_state st w t with
    | error err => simp
    | ok p =>
      obtain ⟨e, st2⟩ := p
      rw [h] at hne
      rcases check_state_ok_cases st w t e st2 h with ⟨hd, hs⟩ | ⟨hd, hs⟩
      · subst hd
        simp at hne
      · subst hs
        simp

theorem qr_run_done (st : QrState) (ops : List QrOp) :
    (qr_run st ops).1.has_done = true
      ↔ (st.has_done = true ∨ QrCodeLoginEvents.DONE ∈ (qr_run st ops).2) := by
  induction ops generalizing st with
  | nil => simp [qr_run]
  | cons op rest ih =>
    simp only [qr_run]
    rw [ih, qr_step_has_done]
    simp only [List.mem_append, Option.mem_toList, Option.mem_def]
    tauto

/-- Claim C8: over every run of a `QrCodeLogin` instance,
`get_credential` returns without raising exactly when `has_done()` holds,
`has_done()` holds exactly when some earlier `check_state` call returned
`DONE`, every step other than a `DONE`-returning `check_state` leaves the
stored credential unchanged, and `has_done()` never reverts to false. -/
theorem C8_qr_login_state (p : QrCodeLoginChannel) (ops : List QrOp) :
    ((∃ c, get_credential (qr_run (qr_init p) ops).1 = Except.ok c)
        ↔ (qr_run (qr_init p) ops).1.has_done = true)
  ∧ ((qr_run (qr_init p) ops).1.has_done = true
        ↔ QrCodeLoginEvents.DONE ∈ (qr_run (qr_init p) ops).2)
  ∧ (∀ st op, (qr_step st op).2 ≠ some QrCodeLoginEvents.DONE →
        (qr_step st op).1.credential = st.credential)
  ∧ (∀ st op, st.has_done = true → (qr_step st op).1.has_done = true) := by
  refine ⟨?_, ?_, fun st op => qr_step_credential st op,
    fun st op h => (qr_step_has_done st op).mpr (Or.inl h)⟩
  · cases hc : (qr_run (qr_init p) ops).1.credential with
    | none => simp [get_credential, hc, QrState.has_done]
    | some c => simp [get_credential, hc, QrState.has_done]
  · rw [qr_run_done]
    have hini : (qr_init p).has_done = false := rfl
    simp [hini]

/-- A concrete run: one successful WEB `check_state` poll. -/
def c8_ops : List QrOp :=
  [QrOp.check (WebEventsResp.mk 0 "u?SESSDATA=s&bili_jct=j&DedeUserID=d" "r")
    (TvEventsResp.mk 0 [] "r")]

/-- Witness for C8 on the concrete run `c8_ops`. -/
theorem C8_qr_login_state_witness :
    ∃ c, get_credential (qr_run (qr_init QrCodeLoginChannel.WEB) c8_ops).1 = Except.ok c :=
  (C8_qr_login_state QrCodeLoginChannel.WEB c8_ops).1.mpr (by decide)

/-! ## Password and SMS login flows

Each flow is a bounded sequence of HTTP exchanges; the decoded JSON of the
decisive response is passed in as a record, and the requests the flow
performs are reported as an explicit trace for the atomicity claim.
-/

/-- A network request one of the modelled flows can perform. -/
inductive NetReq where
  | password_get_token
  | password_login
  | sms_send
deriving DecidableEq

/-- The decoded password-login JSON (`code`, `message`,
`data.status`, `data.refresh_token`) together with the three response
cookies `login_with_password` reads. -/
structure PwResp where
  code : Int
  status : Int
  refresh_token : String
  message : String
  cookie_sessdata : Option String
  cookie_bili_jct : Option String
  cookie_dedeuserid : Option String
deriving DecidableEq

/-- The branching of `login_with_password` on the decoded response:
status 1 and 2 raise the fixed verification `LoginError`, a nonzero code
raises `LoginError` with the response message, and otherwise a credential
is built from the cookies (`str(None)` for an absent cookie) plus
`data.refresh_token`. -/
def login_with_password_parse (r : PwResp) : Except PyErr Credential :=
  if r.code = 0 then
    if r.status = 1 then
      Except.error (PyErr.loginError "需要手机号进一步验证码验证，请直接通过验证码登录")
    else if r.status = 2 then
      Except.error (PyErr.loginError "需要手机号进一步验证码验证，请直接通过验证码登录")
    else
      Except.ok (Credential.mk (some (pyStrOfOpt r.cookie_sessdata))
        (some (pyStrOfOpt r.cookie_bili_jct)) (some (pyStrOfOpt r.cookie_dedeuserid))
        (some r.refresh_token))
  else Except.error (PyErr.loginError r.message)

/-- `login_with_password`: the Geetest guard runs before any request; on
the happy path the flow fetches the RSA token and posts the login form
(the two requests of the trace), then parses the response. -/
def login_with_password (g : Geetest) (r : PwResp) :
    Except PyErr Credential × List NetReq :=
  if g.has_done = false then (Except.error PyErr.geetestUndone, [])
  else (login_with_password_parse r, [NetReq.password_get_token, NetReq.password_login])

/-- The decoded JSON of the SMS-send endpoint. -/
structure SmsSendResp where
  code : Int
  captcha_key : String
  message : String
deriving DecidableEq

/-- `send_sms`: the Geetest guard runs before the single request; a zero
code yields `data.captcha_key`, otherwise `LoginError` with the message. -/
def send_sms (g : Geetest) (r : SmsSendResp) : Except PyErr String × List NetReq :=
  if g.has_done = false then (Except.error PyErr.geetestUndone, [])
  else ((if r.code = 0 then Except.ok r.captcha_key
         else Except.error (PyErr.loginError r.message)), [NetReq.sms_send])

/-- The decoded SMS-login JSON (`code`, `message`, `data.status`,
`data.url`, `data.refresh_token`). -/
structure SmsLoginResp where
  code : Int
  status : Int
  url : String
  refresh_token : String
  message : String
deriving DecidableEq

/-- The branching of `login_with_sms` on the decoded response: with code
0 and status other than 5 the cookie URL is parsed into a credential
(raising `IndexError` when it has no `'?'`), with code 0 and status 5 the
fixed verification `LoginError` is raised, and otherwise `LoginError`
with the response message. -/
def login_with_sms_parse (r : SmsLoginResp) : Except PyErr Credential :=
  if r.code = 0 ∧ r.status ≠ 5 then
    match extract_cookies_url r.url with
    | some v =>
      Except.ok (Credential.mk (some v.1) (some v.2.1) (some v.2.2) (some r.refresh_token))
    | none => Except.error PyErr.indexError
  else if r.code = 0 ∧ r.status = 5 then
    Except.error (PyErr.loginError "需要验证 请使用二维码方式登录")
  else Except.error (PyErr.loginError r.message)

/-- Claim C7: `login_with_password` yields a credential exactly when the
response code is 0 and `data.status` is neither 1 nor 2; status 1 or 2
raises `LoginError`, a nonzero code raises `LoginError` carrying the
response message, and the credential is built from the three cookies and
`data.refresh_token`. -/
theorem C7_login_with_password_behavior (r : PwResp) :
    ((∃ c, login_with_password_parse r = Except.ok c)
        ↔ (r.code = 0 ∧ r.status ≠ 1 ∧ r.status ≠ 2))
  ∧ (r.code = 0 → (r.status = 1 ∨ r.status = 2) →
      login_with_password_parse r
        = Except.error (PyErr.loginError "需要手机号进一步验证码验证，请直接通过验证码登录"))
  ∧ (r.code ≠ 0 → login_with_password_parse r = Except.error (PyErr.loginError r.message))
  ∧ (r.code = 0 → r.status ≠ 1 → r.status ≠ 2 →
      login_with_password_parse r
        = Except.ok (Credential.mk (some (pyStrOfOpt r.cookie_sessdata))
            (some (pyStrOfOpt r.cookie_bili_jct)) (some (pyStrOfOpt r.cookie_dedeuserid))
            (some r.refresh_token))) := by
  refine ⟨⟨?_, ?_⟩, ?_, ?_, ?_⟩
  · rintro ⟨c, hc⟩
    unfold login_with_password_parse at hc
    split_ifs at hc with h1 h2 h3
    · exact ⟨h1, h2, h3⟩
  · rintro ⟨h1, h2, h3⟩
    refine ⟨Credential.mk (some (pyStrOfOpt r.cookie_sessdata))
      (some (pyStrOfOpt r.cookie_bili_jct)) (some (pyStrOfOpt r.cookie_dedeuserid))
      (some r.refresh_token), ?_⟩
    simp [login_with_password_parse, h1, h2, h3]
  · rintro h1 (h2 | h2) <;> simp [login_with_password_parse, h1, h2]
  · intro h1
    simp [login_with_password_parse, h1]
  · intro h1 h2 h3
    simp [login_with_password_parse, h1, h2, h3]

/-- Witness for C7 on a concrete successful response. -/
theorem C7_login_with_password_behavior_witness :
    login_with_password_parse (PwResp.mk 0 0 "rt" "m" (some "s") (some "j") (some "d"))
      = Except.ok (Credential.mk (some "s") (some "j") (some "d") (some "rt")) :=
  (C7_login_with_password_behavior
      (PwResp.mk 0 0 "rt" "m" (some "s") (some "j") (some "d"))).2.2.2
    rfl (by decide) (by decide)

/-- Claim C6: `login_with_sms` yields a credential exactly when the
response code is 0 and `data.status` is not 5 (for responses whose
cookie URL carries a query part, which the remote contract guarantees);
with code 0 and status 5 it raises the fixed verification `LoginError`,
and with a nonzero code it raises `LoginError` carrying the response
message. -/
theorem C6_login_with_sms_behavior (r : SmsLoginResp)
    (hq : 1 < (pySplit r.url '?').length) :
    ((∃ c, login_with_sms_parse r = Except.ok c) ↔ (r.code = 0 ∧ r.status ≠ 5))
  ∧ (r.code = 0 → r.status = 5 →
      login_with_sms_parse r = Except.error (PyErr.loginError "需要验证 请使用二维码方式登录"))
  ∧ (r.code ≠ 0 → login_with_sms_parse r = Except.error (PyErr.loginError r.message)) := by
  have hsome : ∃ v, extract_cookies_url r.url = some v := by
    unfold extract_cookies_url
    cases hl : pySplit r.url '?' with
    | nil => rw [hl] at hq; simp at hq
    | cons a l2 =>
      cases l2 with
      | nil => rw [hl] at hq; simp at hq
      | cons b rest => exact ⟨_, rfl⟩
  obtain ⟨v, hv⟩ := hsome
  refine ⟨⟨?_, ?_⟩, ?_, ?_⟩
  · rintro ⟨c, hc⟩
    unfold login_with_sms_parse at hc
    split_ifs at hc with h1 h2
    exact h1
  · rintro ⟨h1, h2⟩
    refine ⟨Credential.mk (some v.1) (some v.2.1) (some v.2.2) (some r.refresh_token), ?_⟩
    unfold login_with_sms_parse
    rw [if_pos (And.intro h1 h2), hv]
  · intro h1 h2
    have hn : ¬(r.code = 0 ∧ r.status ≠ 5) := by simp [h1, h2]
    simp [login_with_sms_parse, hn, h1, h2]
  · intro h1
    have hn : ¬(r.code = 0 ∧ r.status ≠ 5) := by simp [h1]
    have hn2 : ¬(r.code = 0 ∧ r.status = 5) := by simp [h1]
    simp [login_with_sms_parse, hn, hn2]

/-- Witness for C6 on a concrete successful response. -/
theorem C6_login_with_sms_behavior_witness :
    ∃ c, login_with_sms_parse
        (SmsLoginResp.mk 0 0 "u?SESSDATA=s&bili_jct=j&DedeUserID=d" "rt" "m")
      = Except.ok c :=
  (C6_login_with_sms_behavior
      (SmsLoginResp.mk 0 0 "u?SESSDATA=s&bili_jct=j&DedeUserID=d" "rt" "m")
      (by decide)).1.mpr (by decide)

/-- Claim C9: with a Geetest instance whose `has_done()` is false, both
`login_with_password` and `send_sms` raise `GeetestUndoneException`
before performing any network request: the result is the error and the
request trace is empty. -/
theorem C9_geetest_guard (g : Geetest) (h : g.has_done = false)
    (rp : PwResp) (rs : SmsSendResp) :
    login_with_password g rp = (Except.error PyErr.geetestUndone, [])
  ∧ send_sms g rs = (Except.error PyErr.geetestUndone, []) := by
  constructor <;> simp [login_with_password, send_sms, h]

/-- Witness for C9 on a concrete unfinished Geetest instance. -/
theorem C9_geetest_guard_witness :
    login_with_password (Geetest.mk "" "" "" "" false)
        (PwResp.mk 0 0 "" "" none none none)
      = (Except.error PyErr.geetestUndone, [])
  ∧ send_sms (Geetest.mk "" "" "" "" false) (SmsSendResp.mk 0 "" "")
      = (Except.error PyErr.geetestUndone, []) :=
  C9_geetest_guard (Geetest.mk "" "" "" "" false) rfl
    (PwResp.mk 0 0 "" "" none none none) (SmsSendResp.mk 0 "" "")

/-! ## Country-code table and phone numbers -/

/-- A processed entry of `get_countries_list()`: `name` is the JSON
`cname` field, `id` the JSON `id` field (the platform's region id), and
`code` is `int(country_id)` (the phone prefix) — always an integer. -/
structure Country where
  name : String
  id : Int
  code : Int
deriving DecidableEq

/-- Modelled from the spec: the table contents come from
`data/countries_codes.json`, which is not under `src/`; the spec says
only that it is "a small lookup table for phone country codes", so a
small representative table is used here, and every table-processing
theorem is proved over an arbitrary table. -/
def countries_list : List Country :=
  [Country.mk "中国大陆" 1 86,
   Country.mk "美国" 59 1,
   Country.mk "英国" 64 44,
   Country.mk "日本" 30 81]

/-- The `country` argument of the lookups: Python `Union[str, int]`. -/
inductive CountryArg where
  | str (s : String)
  | int (n : Int)
deriving DecidableEq

/-- Python `country["name"] == keyword` for a possibly-integer keyword:
comparing a string with an integer is simply `False`. -/
def name_matches_arg (a : CountryArg) (c : Country) : Bool :=
  match a with
  | CountryArg.str s => decide (c.name = s)
  | CountryArg.int _ => false

/-- `have_country` over an explicit table: is some entry named exactly
like the keyword? -/
def have_country_on (table : List Country) (a : CountryArg) : Bool :=
  table.any (name_matches_arg a)

/-- `have_code` over an explicit table: a string code is `lstrip`ped of
`'+'` and parsed with `int()` (raising `ValueError` on failure), an
integer code is used directly; then the code column is searched. -/
def have_code_on (table : List Country) (a : CountryArg) : Except PyErr Bool :=
  match a with
  | CountryArg.str s =>
    match pyInt (pyLstripPlus s) with
    | none => Except.error (PyErr.valueError "地区代码参数错误")
    | some v => Except.ok (table.any (fun c => decide (c.code = v)))
  | CountryArg.int n => Except.ok (table.any (fun c => decide (c.code = n)))

/-- `get_code_by_country` over an explicit table: the code of the first
name-matching entry, `-1` when there is none. -/
def get_code_by_country_on (table : List Country) (a : CountryArg) : Int :=
  match table.find? (name_matches_arg a) with
  | some c => c.code
  | none => -1

/-- `get_id_by_code` over an explicit table: the id of the first entry
with the given code, `-1` when there is none. -/
def get_id_by_code_on (table : List Country) (code : Int) : Int :=
  match table.find? (fun c => decide (c.code = code)) with
  | some c => c.id
  | none => -1

/-- `search_countries` over an explicit table.  The source keeps a
country when `keyword in country["name"]` holds; when that fails, Python
evaluates `keyword.lstrip("+") in country["code"]`, and since the `code`
field is an integer the `in` operator raises `TypeError` right there. -/
def search_countries_on (keyword : String) : List Country → Except PyErr (List Country)
  | [] => Except.ok []
  | c :: rest =>
    if strContains c.name keyword then
      (search_countries_on keyword rest).map (fun l => c :: l)
    else Except.error (PyErr.typeError "argument of type int is not iterable")

/-- `search_countries(keyword)` on the modelled table. -/
def search_countries (keyword : String) : Except PyErr (List Country) :=
  search_countries_on keyword countries_list

/-- The attributes of a successfully constructed `PhoneNumber`. -/
structure PhoneNumber where
  number : String
  code : Int
  id_ : Int
deriving DecidableEq

/-- The code-resolution part of `PhoneNumber.__init__`: the country must
be a known name (giving that entry's code) or, failing that, a known
code (`code = country if isinstance(country, int) else
int(country.lstrip("+"))`); otherwise `ValueError`. -/
def resolve_code_on (table : List Country) (country : CountryArg) : Except PyErr Int :=
  if have_country_on table country = false then
    match have_code_on table country with
    | Except.error e => Except.error e
    | Except.ok false => Except.error (PyErr.valueError "地区代码或地区名错误")
    | Except.ok true =>
      match country with
      | CountryArg.int n => Except.ok n
      | CountryArg.str s =>
        match pyInt (pyLstripPlus s) with
        | some v => Except.ok v
        | none => Except.error (PyErr.valueError "invalid literal for int with base 10")
  else Except.ok (get_code_by_country_on table country)

/-- `PhoneNumber.__init__` over an explicit table: dashes are removed
from the number, the country is resolved to a code, and the region id is
looked up from that code. -/
def phone_number_init_on (table : List Country) (number : String) (country : CountryArg) :
    Except PyErr PhoneNumber :=
  match resolve_code_on table country with
  | Except.error e => Except.error e
  | Except.ok code =>
    Except.ok (PhoneNumber.mk (pyRemoveDash number) code (get_id_by_code_on table code))

/-- The claim's "country name present in the lookup table". -/
def name_present (table : List Country) : CountryArg → Prop
  | CountryArg.str s => ∃ c ∈ table, c.name = s
  | CountryArg.int _ => False

/-- The claim's "country code present in the table": a string code is
stripped of leading `'+'` and parsed, so a non-numeric string is never
present. -/
def code_present (table : List Country) : CountryArg → Prop
  | CountryArg.str s => ∃ v, pyInt (pyLstripPlus s) = some v ∧ ∃ c ∈ table, c.code = v
  | CountryArg.int n => ∃ c ∈ table, c.code = n

theorem have_country_iff (table : List Country) (a : CountryArg) :
    have_country_on table a = true ↔ name_present table a := by
  cases a with
  | str s => simp [have_country_on, name_present, List.any_eq_true, name_matches_arg]
  | int n => simp [have_country_on, name_matches_arg, name_present]

theorem get_id_by_code_mem (table : List Country) (v : Int)
    (h : ∃ c ∈ table, c.code = v) :
    ∃ c2 ∈ table, get_id_by_code_on table v = c2.id := by
  have hsome : (table.find? (fun c => decide (c.code = v))).isSome = true := by
    rw [List.find?_isSome]
    obtain ⟨c, hc1, hc2⟩ := h
    exact ⟨c, hc1, by simp [hc2]⟩
  obtain ⟨c2, hc2⟩ := Option.isSome_iff_exists.mp hsome
  exact ⟨c2, List.mem_of_find?_eq_some hc2, by simp [get_id_by_code_on, hc2]⟩

theorem resolve_code_spec (table : List Country) (country : CountryArg) :
    (¬ name_present table country ∧ ¬ code_present table country →
        ∃ m, resolve_code_on table country = Except.error (PyErr.valueError m))
  ∧ (∀ v, resolve_code_on table country = Except.ok v → ∃ c ∈ table, c.code = v)
  ∧ ((name_present table country ∨ code_present table country) →
        ∃ v, resolve_code_on table country = Except.ok v) := by
  by_cases hn : have_country_on table country = true
  · have hname := (have_country_iff table country).mp hn
    have hval : resolve_code_on table country
        = Except.ok (get_code_by_country_on table country) := by
      unfold resolve_code_on
      rw [hn]
      simp
    refine ⟨?_, ?_, ?_⟩
    · rintro ⟨hnn, _⟩
      exact absurd hname hnn
    · intro v hv
      rw [hval] at hv
      simp only [Except.ok.injEq] at hv
      subst hv
      have hsome : (table.find? (name_matches_arg country)).isSome = true := by
        rw [List.find?_isSome]
        cases country with
        | str s =>
          obtain ⟨c, hc1, hc2⟩ := hname
          exact ⟨c, hc1, by simp [name_matches_arg, hc2]⟩
        | int n => exact absurd hname (by simp [name_present])
      obtain ⟨c2, hc2⟩ := Option.isSome_iff_exists.mp hsome
      refine ⟨c2, List.mem_of_find?_eq_some hc2, ?_⟩
      simp [get_code_by_country_on, hc2]
    · intro _
      exact ⟨_, hval⟩
  · have hn2 : have_country_on table country = false := by
      cases h : have_country_on table country
      · rfl
      · exact absurd h hn
    have hname : ¬ name_present table country :=
      fun hp => hn ((have_country_iff table country).mpr hp)
    cases country with
    | int n =>
      by_cases hcv : ∃ c ∈ table, c.code = n
      · have hany : table.any (fun c => decide (c.code = n)) = true := by
          rw [List.any_eq_true]
          obtain ⟨c, hc1, hc2⟩ := hcv
          exact ⟨c, hc1, by simp [hc2]⟩
        have hval : resolve_code_on table (CountryArg.int n) = Except.ok n := by
          simp [resolve_code_on, hn2, have_code_on, hany]
        refine ⟨?_, ?_, fun _ => ⟨n, hval⟩⟩
        · rintro ⟨_, hcp⟩
          exact absurd hcv hcp
        · intro v hv
          rw [hval] at hv
          simp only [Except.ok.injEq] at hv
          subst hv
          exact hcv
      · have hany : table.any (fun c => decide (c.code = n)) = false := by
          cases h : table.any (fun c => decide (c.code = n))
          · rfl
          · rw [List.any_eq_true] at h
            obtain ⟨c, hc1, hc2⟩ := h
            simp only [decide_eq_true_eq] at hc2
            exact absurd ⟨c, hc1, hc2⟩ hcv
        have hval : resolve_code_on table (CountryArg.int n)
            = Except.error (PyErr.valueError "地区代码或地区名错误") := by
          simp [resolve_code_on, hn2, have_code_on, hany]
        refine ⟨fun _ => ⟨_, hval⟩, ?_, ?_⟩
        · intro v hv
          rw [hval] at hv
          exact absurd hv (by simp)
        · rintro (hp | hp)
          · exact absurd hp hname
          · exact absurd hp hcv
    | str s =>
      cases hv : pyInt (pyLstripPlus s) with
      | none =>
        have hval : resolve_code_on table (CountryArg.str s)
            = Except.error (PyErr.valueError "地区代码参数错误") := by
          simp [resolve_code_on, hn2, have_code_on, hv]
        refine ⟨fun _ => ⟨_, hval⟩, ?_, ?_⟩
        · intro v hv2
          rw [hval] at hv2
          exact absurd hv2 (by simp)
        · rintro (hp | hp)
          · exact absurd hp hname
          · obtain ⟨w, hw, _⟩ := hp
            rw [hv] at hw
            exact absurd hw (by simp)
      | some v =>
        by_cases hcv : ∃ c ∈ table, c.code = v
        · have hany : table.any (fun c => decide (c.code = v)) = true := by
            rw [List.any_eq_true]
            obtain ⟨c, hc1, hc2⟩ := hcv
            exact ⟨c, hc1, by simp [hc2]⟩
          have hval : resolve_code_on table (CountryArg.str s) = Except.ok v := by
            simp [resolve_code_on, hn2, have_code_on, hv, hany]
          refine ⟨?_, ?_, fun _ => ⟨v, hval⟩⟩
          · rintro ⟨_, hcp⟩
            exact absurd ⟨v, hv, hcv⟩ hcp
          · intro w hw
            rw [hval] at hw
            simp only [Except.ok.injEq] at hw
            subst hw
            exact hcv
        · have hany : table.any (fun c => decide (c.code = v)) = false := by
            cases h : table.any (fun c => decide (c.code = v))
            · rfl
            · rw [List.any_eq_true] at h
              obtain ⟨c, hc1, hc2⟩ := h
              simp only [decide_eq_true_eq] at hc2
              exact absurd ⟨c, hc1, hc2⟩ hcv
          have hval : resolve_code_on table (CountryArg.str s)
              = Except.error (PyErr.valueError "地区代码或地区名错误") := by
            simp [resolve_code_on, hn2, have_code_on, hv, hany]
          refine ⟨fun _ => ⟨_, hval⟩, ?_, ?_⟩
          · intro w hw
            rw [hval] at hw
            exact absurd hw (by simp)
          · rintro (hp | hp)
            · exact absurd hp hname
            · obtain ⟨w, hw, hcmem⟩ := hp
              rw [hv] at hw
              simp only [Option.some_inj] at hw
              subst hw
              exact absurd hcmem hcv

/-- Claim C5: code bug.  `search_countries("86")` should return the
entries matching by name or by code — in particular 中国大陆, whose code
86 contains the keyword — but because `country["code"]` is an integer
(`int(country["country_id"])`), the membership test
`keyword.lstrip("+") in country["code"]` raises `TypeError` as soon as
the name test fails, which already happens on the first entry. -/
theorem C5_search_countries_type_bug :
    search_countries "86"
      = Except.error (PyErr.typeError "argument of type int is not iterable") := by
  rfl

/-- Claim C10: `PhoneNumber.__init__` raises exactly when the country
argument is neither a name present in the table nor a code present in it
(a non-numeric string code parses to nothing and therefore also raises),
the raised exception is always a `ValueError`, and a successfully
constructed number carries the dash-stripped number and a code present
in the table, so its region id is never `-1` (for tables whose ids are
not `-1`). -/
theorem C10_phone_number_init (table : List Country) (number : String) (country : CountryArg) :
    ((∃ e, phone_number_init_on table number country = Except.error e)
        ↔ (¬ name_present table country ∧ ¬ code_present table country))
  ∧ (∀ e, phone_number_init_on table number country = Except.error e →
        ∃ m, e = PyErr.valueError m)
  ∧ (∀ pn, phone_number_init_on table number country = Except.ok pn →
        pn.number = pyRemoveDash number
        ∧ (∃ c ∈ table, c.code = pn.code)
        ∧ ((∀ c ∈ table, c.id ≠ -1) → pn.id_ ≠ -1)) := by
  obtain ⟨hcond, hokmem, hok⟩ := resolve_code_spec table country
  refine ⟨⟨?_, ?_⟩, ?_, ?_⟩
  · rintro ⟨e, he⟩
    by_contra hcon
    rw [not_and_or, not_not, not_not] at hcon
    obtain ⟨v, hv⟩ := hok hcon
    unfold phone_number_init_on at he
    rw [hv] at he
    exact absurd he (by simp)
  · rintro ⟨h1, h2⟩
    obtain ⟨m, hm⟩ := hcond ⟨h1, h2⟩
    refine ⟨PyErr.valueError m, ?_⟩
    unfold phone_number_init_on
    rw [hm]
  · intro e he
    cases hr : resolve_code_on table country with
    | ok v =>
      unfold phone_number_init_on at he
      rw [hr] at he
      exact absurd he (by simp)
    | error e2 =>
      unfold phone_number_init_on at he
      rw [hr] at he
      simp only [Except.error.injEq] at he
      subst he
      have hcc : ¬ name_present table country ∧ ¬ code_present table country := by
        by_contra hcon
        rw [not_and_or, not_not, not_not] at hcon
        obtain ⟨v, hv⟩ := hok hcon
        rw [hr] at hv
        exact absurd hv (by simp)
      obtain ⟨m, hm⟩ := hcond hcc
      rw [hr] at hm
      simp only [Except.error.injEq] at hm
      exact ⟨m, hm⟩
  · intro pn hpn
    cases hr : resolve_code_on table country with
    | error e =>
      unfold phone_number_init_on at hpn
      rw [hr] at hpn
      exact absurd hpn (by simp)
    | ok v =>
      unfold phone_number_init_on at hpn
      rw [hr] at hpn
      simp only [Except.ok.injEq] at hpn
      subst hpn
      refine ⟨rfl, ?_, ?_⟩
      · exact hokmem v hr
      · intro hid
        obtain ⟨c2, hc2mem, hc2id⟩ := get_id_by_code_mem table v (hokmem v hr)
        have hpnid : (PhoneNumber.mk (pyRemoveDash number) v (get_id_by_code_on table v)).id_
            = c2.id := hc2id
        rw [hpnid]
        exact hid c2 hc2mem

/-- Witness for C10 on the modelled table with country `"+86"`. -/
theorem C10_phone_number_init_witness :
    ∃ c ∈ countries_list, c.code = (PhoneNumber.mk "1234567" 86 1).code :=
  ((C10_phone_number_init countries_list "123-4567" (CountryArg.str "+86")).2.2
    (PhoneNumber.mk "1234567" 86 1) (by rfl)).2.1

end BilibiliLogin
